import Mathlib

/-!
Shallow embedding of the Whisper-to-Ollama transcription plugin (source file
src of the repository, main module). The embedding models the element
watcher (mutation observer and markdown post-processor scan), the
transcription orchestrator, the backend clients, and the result inserter as
pure Lean functions over explicit environments that describe the outcomes of
the external network calls and the state of the editor. Machine-level
concerns (actual HTTP, DOM object identity, wall-clock time) are abstracted
into those environments; control flow, failure handling, the UI strings, the
timer bookkeeping and the text-insertion arithmetic are translated directly
from the source.
-/

namespace WhisperToOllama

/-- One child node of a DOM parent element, as relevant to the element
watcher: an audio element, the transcribe control marker (a node carrying the
class transcribe-button), or any other node. -/
inductive ChildNode where
  | audio : ChildNode
  | transcribeButton : ChildNode
  | other : ChildNode
deriving DecidableEq

/-- A DOM parent element together with the ordered list of its children. The
watcher only ever inspects one parent level: the guard in the source checks
the audio element's parentElement for an existing control. -/
structure Parent where
  children : List ChildNode
deriving DecidableEq

/-- Number of occurrences of a given node kind in a child list. -/
def countNode (t : ChildNode) : List ChildNode → Nat
  | [] => 0
  | c :: rest => (if c = t then 1 else 0) + countNode t rest

/-- Number of audio elements under a parent. -/
def audioCount (p : Parent) : Nat := countNode ChildNode.audio p.children

/-- Number of transcribe controls under a parent. -/
def buttonCount (p : Parent) : Nat := countNode ChildNode.transcribeButton p.children

/-- Source lines 74 to 92: addTranscribeButton(audio). If the audio
element's parent already contains a node with class transcribe-button
(querySelector finds a match), nothing happens; otherwise a fresh button is
created and appended to the parent. -/
def addTranscribeButton (p : Parent) : Parent :=
  if ChildNode.transcribeButton ∈ p.children then p
  else { children := p.children ++ [ChildNode.transcribeButton] }

/-- Effect of one scan pass on a single parent: the scan calls
addTranscribeButton once per audio element found beneath it (forEach over the
querySelectorAll result), so the per-parent effect is audioCount-fold
iteration of addTranscribeButton. -/
def scanParent (p : Parent) : Parent :=
  Nat.iterate addTranscribeButton (audioCount p) p

/-- Source lines 63 to 71: addTranscribeButtonToAudio(el) finds every audio
element beneath the scanned root and calls addTranscribeButton on each. The
mutation-observer callback (source lines 41 to 60) runs the identical loop on
each mutation target, so this single function models both scan entry
points. The scanned subtree is modelled as the list of parents it contains. -/
def addTranscribeButtonToAudio (d : List Parent) : List Parent :=
  d.map scanParent

/-- Plugin settings, source lines 5 to 10. -/
structure MyPluginSettings where
  settingWhisperIP : String
  settingOllamaIP : String
  settingOllamaToggle : Bool
  settingOllamaPrompt : String

/-- Outcome of one fetch call as observed by the caller: either the promise
rejects (network exception), or a response arrives carrying its ok flag and
the parse result of its JSON body (none when the body fails to parse as the
expected shape). -/
inductive FetchOutcome (α : Type) where
  | netError : FetchOutcome α
  | response : Bool → Option α → FetchOutcome α
deriving DecidableEq

/-- Source lines 283 to 293: checkWhisperServerAvailability issues a GET to
the base address; returns response.ok on a response and false when the fetch
throws (the catch branch logs and returns false, so no exception escapes). -/
def checkWhisperServerAvailability (probe : FetchOutcome Unit) : Bool :=
  match probe with
  | FetchOutcome.netError => false
  | FetchOutcome.response ok _ => ok

/-- Source lines 188 to 202: fetchTranscription POSTs the form data to the
asr endpoint. A network failure, a non-ok status (explicit throw of
Failed to fetch transcription) or a JSON parse failure all surface as a
thrown error, modelled as Except.error; on success the text field of the
parsed body is returned. -/
def fetchTranscription (r : FetchOutcome String) : Except String String :=
  match r with
  | FetchOutcome.netError => Except.error "network error"
  | FetchOutcome.response ok body =>
    if ok then
      match body with
      | some t => Except.ok t
      | none => Except.error "json parse error"
    else Except.error "Failed to fetch transcription"

/-- The chat payload built by processWithOllama, source lines 207 to 216:
fixed model, a single user message concatenating the configured prompt and
the transcription, streaming disabled. -/
structure OllamaPayload where
  model : String
  content : String
  stream : Bool

/-- Payload construction of processWithOllama, source lines 207 to 216. -/
def ollamaPayload (s : MyPluginSettings) (transcription : String) : OllamaPayload :=
  { model := "llama3.2"
    content := s.settingOllamaPrompt ++ "\n\n" ++ transcription
    stream := false }

/-- Source lines 205 to 237: response handling of processWithOllama. The
body parse result is Option (Option String): none when json() rejects, some
mc where mc is the optional message content field. Every failure path
(network error, non-ok status, parse failure) is caught by the internal
try-catch and degrades to the fixed fallback string; an ok response with
absent or empty content yields the placeholder string; otherwise the content
is returned. The function never throws. -/
def processWithOllama (r : FetchOutcome (Option String)) : String :=
  match r with
  | FetchOutcome.netError => "Failed to process text with Ollama."
  | FetchOutcome.response ok body =>
    if ok then
      match body with
      | none => "Failed to process text with Ollama."
      | some mc =>
        match mc with
        | some c => if c.isEmpty then "Ollama returned no text." else c
        | none => "Ollama returned no text."
    else "Failed to process text with Ollama."

/-- Predicate on the Ollama call outcome matching exactly the failure cases
that the internal catch of processWithOllama converts to the fallback
string: network error, non-ok status, or body parse failure. -/
def ollamaFailed : FetchOutcome (Option String) → Bool
  | FetchOutcome.netError => true
  | FetchOutcome.response ok body => if ok then body.isNone else true

/-- A cursor position in the editor text model, line and column, as used by
getCursor, replaceRange and setCursor. -/
structure EditorPos where
  line : Nat
  ch : Nat
deriving DecidableEq

/-- Single-position replaceRange: insert newline-free text into the document
(a list of lines) at the given line and column. When the line index is out of
range the document is returned unchanged. -/
def insertAt (doc : List String) (lineIdx ch : Nat) (text : String) : List String :=
  match doc.get? lineIdx with
  | some line => doc.set lineIdx ((line.take ch) ++ text ++ (line.drop ch))
  | none => doc

/-- Result of the result-inserter call: the document after the call, the
cursor after the call, the transient notice issued if any, and whether the
document was mutated. -/
structure InsertResult where
  doc : List String
  cursor : EditorPos
  notice : Option String
  mutated : Bool

/-- Source lines 240 to 280: displayTranscriptionResult. Guards in source
order: missing transcribe button, no active editor, missing button parent -
each issues a Notice and returns without touching the document. Otherwise the
transcription is trimmed, inserted at column 0 of the line immediately below
the line of the editor cursor read at call time (getCursor at completion),
and the cursor is set to that line at column equal to the trimmed length,
the end of the inserted text. -/
def displayTranscriptionResult (buttonFound editorFound parentFound : Bool)
    (doc : List String) (cursor : EditorPos) (transcription : String) : InsertResult :=
  if buttonFound = false then
    { doc := doc, cursor := cursor, notice := some "Transcribe button not found!", mutated := false }
  else if editorFound = false then
    { doc := doc, cursor := cursor, notice := some "No active editor found!", mutated := false }
  else if parentFound = false then
    { doc := doc, cursor := cursor
      notice := some "Could not find the position for the transcription.", mutated := false }
  else
    let t := transcription.trim
    let lineAtButton := cursor.line + 1
    { doc := insertAt doc lineAtButton 0 t
      cursor := { line := lineAtButton, ch := t.length }
      notice := none
      mutated := true }

/-- Environment of one transcribeAudio invocation: outcomes of the four
external calls and the state of the editor at the moment the pipeline
completes. cursorAtStart records where the editor cursor was when the job was
activated; the source never reads it (getCursor is only called inside
displayTranscriptionResult, at completion), it is carried in the environment
solely so that theorems can distinguish the two positions. -/
structure TranscribeEnv where
  probe : FetchOutcome Unit
  audioFetch : Except Unit Unit
  asrFetch : FetchOutcome String
  ollamaFetch : FetchOutcome (Option String)
  buttonFound : Bool
  editorFound : Bool
  buttonParentFound : Bool
  doc : List String
  cursorAtStart : EditorPos
  cursorAtCompletion : EditorPos

/-- Result of the body of the try block of transcribeAudio: either the early
return taken when the availability probe fails, or normal completion with the
final text to insert. -/
inductive BodyResult where
  | earlyUnavailable : BodyResult
  | completed : String → BodyResult

/-- The try-block body of transcribeAudio, source lines 120 to 176. An
Except.error models a JS exception reaching the catch at line 177: the audio
fetch rejecting, or fetchTranscription throwing (non-ok status, network
error, or parse failure). The availability early return is a normal return,
not an exception. processWithOllama never throws, so the post-processing
stage cannot produce an error here. -/
def transcribeBody (s : MyPluginSettings) (env : TranscribeEnv) : Except String BodyResult :=
  if checkWhisperServerAvailability env.probe = false then
    Except.ok BodyResult.earlyUnavailable
  else
    match env.audioFetch with
    | Except.error _ => Except.error "audio fetch failed"
    | Except.ok _ =>
      match fetchTranscription env.asrFetch with
      | Except.error e => Except.error e
      | Except.ok transcription =>
        let finalText :=
          if s.settingOllamaToggle then processWithOllama env.ollamaFetch
          else transcription
        Except.ok (BodyResult.completed finalText)

/-- Whether the recognition endpoint was reached: the asr POST happens only
after the probe succeeded and the audio fetch succeeded. -/
def recognitionAttempted (env : TranscribeEnv) : Bool :=
  checkWhisperServerAvailability env.probe &&
    (match env.audioFetch with
     | Except.ok _ => true
     | Except.error _ => false)

/-- Observable outcome of one transcribeAudio invocation. timersStarted and
timersCleared record the interval timers by identity: 0 is the outer
dotInterval created at source line 110, 1 is the inner dotInterval created at
source line 159 inside the post-processing branch. Each clearInterval call
appends the identity of the timer it actually clears. removeDelayMs is the
delay of the setTimeout that removes the progress indicator. -/
structure JobOutcome where
  progressText : String
  recognitionCalled : Bool
  insertCalledWith : Option String
  insertResult : Option InsertResult
  notifications : List String
  removeDelayMs : Nat
  timersStarted : List Nat
  timersCleared : List Nat

/-- Source lines 95 to 185: transcribeAudio. The outer timer 0 is always
started. On the unavailable early return, clearInterval runs at line 129 and
again in the finally block at line 182, both on timer 0. On an exception the
catch sets the failure text and the finally block clears timer 0 once. On
completion, clearInterval runs at lines 151, 172 and 182; at line 172 the
inner const dotInterval of the post-processing branch is already out of
scope, so all three calls clear the OUTER timer 0 - the inner timer 1,
started when the Ollama toggle is on, is never cleared. The finally block
schedules removal of the progress indicator after 3000 ms on every path. -/
def transcribeAudio (s : MyPluginSettings) (env : TranscribeEnv) : JobOutcome :=
  match transcribeBody s env with
  | Except.ok BodyResult.earlyUnavailable =>
    { progressText := "Failed: Server Unavailable"
      recognitionCalled := false
      insertCalledWith := none
      insertResult := none
      notifications := ["Whisper Server Unavailable"]
      removeDelayMs := 3000
      timersStarted := [0]
      timersCleared := [0, 0] }
  | Except.ok (BodyResult.completed finalText) =>
    { progressText := "Transcription Complete"
      recognitionCalled := true
      insertCalledWith := some finalText
      insertResult := some (displayTranscriptionResult env.buttonFound env.editorFound
        env.buttonParentFound env.doc env.cursorAtCompletion finalText)
      notifications := ["Transcription Request"]
      removeDelayMs := 3000
      timersStarted := if s.settingOllamaToggle then [0, 1] else [0]
      timersCleared := [0, 0, 0] }
  | Except.error _ =>
    { progressText := "Failed: Transcription Error"
      recognitionCalled := recognitionAttempted env
      insertCalledWith := none
      insertResult := none
      notifications := ["Transcription Request"]
      removeDelayMs := 3000
      timersStarted := [0]
      timersCleared := [0] }

/-- Source lines 85 to 87: the click listener attached to a transcribe
control is an unconditional call of transcribeAudio on the bound audio
element. No state is consulted: each activation appends one fresh,
independent job to the set of jobs in flight for that element. -/
def clickTranscribe (s : MyPluginSettings) (env : TranscribeEnv)
    (activeJobs : List JobOutcome) : List JobOutcome :=
  activeJobs ++ [transcribeAudio s env]

/-- Source lines 110 to 118 (and identically lines 159 to 167): one tick of
the dot animation. A tick with dotCount below 5 displays dotCount + 1 dots
and increments the counter; otherwise the counter resets to 0 and the label
is displayed with no dots. The displayed dot count always equals the updated
counter value. -/
def dotTick (c : Nat) : Nat := if c < 5 then c + 1 else 0

/-- Dot counter value after n ticks, starting from 0. -/
def dotCountAfter : Nat → Nat
  | 0 => 0
  | n + 1 => dotTick (dotCountAfter n)

/-- Number of trailing dots shown on the progress label at tick n (tick 0 is
the initial render, which shows the bare label with no dots). Since each tick
displays exactly the updated counter value, this coincides with the counter
after n ticks. -/
def displayedDotsAt (n : Nat) : Nat := dotCountAfter n

/-- Interval period of the dot animation, source lines 118 and 167: 500 ms,
one half of a time unit of 1000 ms. -/
def tickIntervalMs : Nat := 500

/-- Progress label text produced by a transcription-stage tick when the
counter holds c, source lines 112 and 116. -/
def transcribingTickText (fileName : String) (c : Nat) : String :=
  if c < 5 then "Transcribing: " ++ fileName ++ String.mk (List.replicate (c + 1) '.')
  else "Transcribing: " ++ fileName

/-- Source line 97: file-name derivation from the audio source URL, falling
back to a generic label when the last path segment is empty. -/
def audioFileNameOf (audioUrl : String) : String :=
  match (audioUrl.splitOn "/").getLast? with
  | some s => if s.isEmpty then "Unknown File" else s
  | none => "Unknown File"

/-- Sample settings with the Ollama toggle on. -/
def sOn : MyPluginSettings :=
  { settingWhisperIP := "192.168.1.10:9000"
    settingOllamaIP := "192.168.1.10:11434"
    settingOllamaToggle := true
    settingOllamaPrompt := "Clean up this transcript." }

/-- Sample settings with the Ollama toggle off. -/
def sOff : MyPluginSettings :=
  { settingWhisperIP := "192.168.1.10:9000"
    settingOllamaIP := "192.168.1.10:11434"
    settingOllamaToggle := false
    settingOllamaPrompt := "Clean up this transcript." }

/-- Sample environment: probe, audio fetch and recognition all succeed with
transcript hello world, the Ollama call fails with a network error, the
insertion targets are all present, the editor holds two lines with the
cursor on line 0 at completion (having started on line 5). -/
def envOllamaFail : TranscribeEnv :=
  { probe := FetchOutcome.response true none
    audioFetch := Except.ok ()
    asrFetch := FetchOutcome.response true (some "hello world")
    ollamaFetch := FetchOutcome.netError
    buttonFound := true
    editorFound := true
    buttonParentFound := true
    doc := ["alpha", "beta"]
    cursorAtStart := { line := 5, ch := 0 }
    cursorAtCompletion := { line := 0, ch := 0 } }

/-- Sample environment identical to envOllamaFail except that the Ollama
call also succeeds. -/
def envOllamaOk : TranscribeEnv :=
  { envOllamaFail with ollamaFetch := FetchOutcome.response true (some (some "polished")) }

/-- Sample environment identical to envOllamaFail except that no active
editor is focused at completion time. -/
def envNoEditor : TranscribeEnv :=
  { envOllamaFail with editorFound := false }

/-- Sample environment in which the availability probe throws. -/
def envDown : TranscribeEnv :=
  { envOllamaFail with probe := FetchOutcome.netError }

/-- Counting distributes over child-list concatenation. -/
theorem countNode_append (t : ChildNode) (l1 l2 : List ChildNode) :
    countNode t (l1 ++ l2) = countNode t l1 + countNode t l2 := by
  induction l1 with
  | nil => simp [countNode]
  | cons c rest ih => simp [countNode, ih]; omega

/-- A node kind has count zero in a child list exactly when it is absent. -/
theorem countNode_eq_zero_iff (t : ChildNode) (l : List ChildNode) :
    countNode t l = 0 ↔ t ∉ l := by
  induction l with
  | nil => simp [countNode]
  | cons c rest ih =>
    by_cases h : c = t
    · subst h
      simp [countNode]
    · simp [countNode, h, ih]
      intro _ hh
      exact h hh.symm

/-- After addTranscribeButton the parent always contains a control. -/
theorem addTranscribeButton_mem (p : Parent) :
    ChildNode.transcribeButton ∈ (addTranscribeButton p).children := by
  unfold addTranscribeButton
  split
  · assumption
  · simp

/-- The guard makes addTranscribeButton a no-op on a parent that already
holds a control. -/
theorem addTranscribeButton_of_mem (p : Parent)
    (h : ChildNode.transcribeButton ∈ p.children) : addTranscribeButton p = p := by
  unfold addTranscribeButton
  simp [h]

/-- Attaching a control is idempotent. -/
theorem addTranscribeButton_idem (p : Parent) :
    addTranscribeButton (addTranscribeButton p) = addTranscribeButton p :=
  addTranscribeButton_of_mem _ (addTranscribeButton_mem p)

/-- Iterating an attachment at least once equals attaching once. -/
theorem iterate_addButton (n : Nat) (p : Parent) :
    Nat.iterate addTranscribeButton (n + 1) p = addTranscribeButton p := by
  induction n with
  | zero => rfl
  | succ k ih =>
    rw [Function.iterate_succ_apply', ih]
    exact addTranscribeButton_idem p

/-- Closed form of the per-parent scan effect. -/
theorem scanParent_eq (p : Parent) :
    scanParent p = if audioCount p = 0 then p else addTranscribeButton p := by
  unfold scanParent
  cases h : audioCount p with
  | zero => simp
  | succ n =>
    rw [iterate_addButton n p]
    simp

/-- Attaching a control does not change the number of audio elements. -/
theorem audioCount_addButton (p : Parent) :
    audioCount (addTranscribeButton p) = audioCount p := by
  unfold addTranscribeButton
  split
  · rfl
  · unfold audioCount
    rw [countNode_append]
    simp [countNode]

/-- The scan does not change the number of audio elements. -/
theorem audioCount_scanParent (p : Parent) :
    audioCount (scanParent p) = audioCount p := by
  rw [scanParent_eq]
  split
  · rfl
  · exact audioCount_addButton p

/-- A scanned parent that holds an audio element and started with no control
ends with exactly one control. -/
theorem scanParent_buttonCount (p : Parent) (hb : buttonCount p = 0)
    (ha : audioCount p ≠ 0) : buttonCount (scanParent p) = 1 := by
  rw [scanParent_eq, if_neg ha]
  have hmem : ChildNode.transcribeButton ∉ p.children := (countNode_eq_zero_iff _ _).mp hb
  unfold addTranscribeButton
  rw [if_neg hmem]
  unfold buttonCount at hb ⊢
  rw [countNode_append, hb]
  simp [countNode]

/-- The per-parent scan is idempotent. -/
theorem scanParent_idem (p : Parent) : scanParent (scanParent p) = scanParent p := by
  rcases Nat.eq_zero_or_pos (audioCount p) with h | h
  · have e : scanParent p = p := by rw [scanParent_eq, if_pos h]
    rw [e, e]
  · have hne : audioCount p ≠ 0 := Nat.pos_iff_ne_zero.mp h
    have e : scanParent p = addTranscribeButton p := by rw [scanParent_eq, if_neg hne]
    rw [e]
    have h3 : audioCount (addTranscribeButton p) ≠ 0 := by
      rw [audioCount_addButton]
      exact hne
    rw [scanParent_eq, if_neg h3]
    exact addTranscribeButton_idem p

/-- The document-level scan is idempotent. -/
theorem addTranscribeButtonToAudio_idem (d : List Parent) :
    addTranscribeButtonToAudio (addTranscribeButtonToAudio d) = addTranscribeButtonToAudio d := by
  unfold addTranscribeButtonToAudio
  induction d with
  | nil => rfl
  | cons p rest ih =>
    simp only [List.map_cons]
    rw [scanParent_idem p]
    simpa using ih

/-- C3: after a scan (post-processor pass or mutation-observer batch)
completes on a document whose parents carry no controls yet, every parent
holding an audio element contains exactly one transcribe control - the
parent-level marker the guard checks - and re-running the scan attaches zero
further controls (the scan is idempotent). -/
theorem scan_exactly_one_control (d : List Parent)
    (hclean : ∀ p ∈ d, buttonCount p = 0) :
    (∀ p ∈ addTranscribeButtonToAudio d, audioCount p ≠ 0 → buttonCount p = 1)
    ∧ addTranscribeButtonToAudio (addTranscribeButtonToAudio d)
        = addTranscribeButtonToAudio d := by
  refine ⟨?_, addTranscribeButtonToAudio_idem d⟩
  intro p hp ha
  rcases List.mem_map.mp (by simpa [addTranscribeButtonToAudio] using hp) with ⟨q, hq, rfl⟩
  have ha2 : audioCount q ≠ 0 := by rwa [audioCount_scanParent] at ha
  exact scanParent_buttonCount q (hclean q hq) ha2

/-- Witness for C3 at a concrete document: one parent with a single audio
element and one parent with two audio elements and another node. -/
theorem scan_exactly_one_control_witness :
    (∀ p ∈ [Parent.mk [ChildNode.audio],
            Parent.mk [ChildNode.other, ChildNode.audio, ChildNode.audio]],
        buttonCount p = 0)
    ∧ ((∀ p ∈ addTranscribeButtonToAudio
          [Parent.mk [ChildNode.audio],
           Parent.mk [ChildNode.other, ChildNode.audio, ChildNode.audio]],
        audioCount p ≠ 0 → buttonCount p = 1)
      ∧ addTranscribeButtonToAudio (addTranscribeButtonToAudio
          [Parent.mk [ChildNode.audio],
           Parent.mk [ChildNode.other, ChildNode.audio, ChildNode.audio]])
        = addTranscribeButtonToAudio
          [Parent.mk [ChildNode.audio],
           Parent.mk [ChildNode.other, ChildNode.audio, ChildNode.audio]]) :=
  ⟨by decide, scan_exactly_one_control _ (by decide)⟩

/-- Inserting at column 0 prepends the inserted text to the target line. -/
theorem take_zero_append_drop_zero (line text : String) :
    line.take 0 ++ text ++ line.drop 0 = text ++ line := by
  apply String.ext
  simp

/-- Every failure case the internal catch of processWithOllama handles
yields the fixed fallback string. -/
theorem processWithOllama_of_failed (r : FetchOutcome (Option String))
    (h : ollamaFailed r = true) :
    processWithOllama r = "Failed to process text with Ollama." := by
  cases r with
  | netError => rfl
  | response ok body =>
    cases ok with
    | false => rfl
    | true =>
      cases body with
      | none => rfl
      | some mc => simp [ollamaFailed, Option.isNone] at h

/-- C1: with post-processing enabled, when the probe, the audio fetch and
the recognition call all succeed but the Ollama call fails (network error,
non-success status, or parse failure), the job is not marked Failed: the
final text handed to the result inserter is the fixed fallback string and
the job terminates in the Done state (progress text Transcription Complete,
never a Failed text). -/
theorem ollamaFailure_nonfatal (s : MyPluginSettings) (env : TranscribeEnv) (t : String)
    (hOn : s.settingOllamaToggle = true)
    (hAvail : checkWhisperServerAvailability env.probe = true)
    (hAudio : env.audioFetch = Except.ok ())
    (hAsr : fetchTranscription env.asrFetch = Except.ok t)
    (hFail : ollamaFailed env.ollamaFetch = true) :
    (transcribeAudio s env).insertCalledWith = some "Failed to process text with Ollama."
    ∧ (transcribeAudio s env).progressText = "Transcription Complete" := by
  have hb : transcribeBody s env
      = Except.ok (BodyResult.completed "Failed to process text with Ollama.") := by
    simp [transcribeBody, hAvail, hAudio, hAsr, hOn, processWithOllama_of_failed _ hFail]
  simp [transcribeAudio, hb]

/-- Witness for C1 at a concrete environment: toggle on, transcript hello
world, Ollama unreachable. -/
theorem ollamaFailure_nonfatal_witness :
    (sOn.settingOllamaToggle = true
      ∧ checkWhisperServerAvailability envOllamaFail.probe = true
      ∧ envOllamaFail.audioFetch = Except.ok ()
      ∧ fetchTranscription envOllamaFail.asrFetch = Except.ok "hello world"
      ∧ ollamaFailed envOllamaFail.ollamaFetch = true)
    ∧ ((transcribeAudio sOn envOllamaFail).insertCalledWith
        = some "Failed to process text with Ollama."
      ∧ (transcribeAudio sOn envOllamaFail).progressText = "Transcription Complete") :=
  ⟨⟨rfl, rfl, rfl, rfl, rfl⟩,
    ollamaFailure_nonfatal sOn envOllamaFail "hello world" rfl rfl rfl rfl rfl⟩

/-- C2: on successful completion, the result inserter trims the final text
and inserts it at column 0 of the line immediately below the line of the
editor cursor as it stands at completion time; only that line of the
document changes, the cursor afterwards sits on that line at a column equal
to the trimmed length (the end of the inserted text), and whenever the
cursor moved lines during the job, the target differs from the line below
the cursor recorded at job start - the control's own position never enters
the computation (the definition of displayTranscriptionResult reads no
position from the control). -/
theorem insertion_below_current_cursor (s : MyPluginSettings) (env : TranscribeEnv)
    (finalText : String) (line : String)
    (hBody : transcribeBody s env = Except.ok (BodyResult.completed finalText))
    (hBtn : env.buttonFound = true)
    (hEd : env.editorFound = true)
    (hPar : env.buttonParentFound = true)
    (hLine : env.doc.get? (env.cursorAtCompletion.line + 1) = some line) :
    ∃ r : InsertResult,
      (transcribeAudio s env).insertResult = some r
      ∧ r.doc = env.doc.set (env.cursorAtCompletion.line + 1) (finalText.trim ++ line)
      ∧ r.cursor = { line := env.cursorAtCompletion.line + 1, ch := finalText.trim.length }
      ∧ (env.cursorAtStart.line ≠ env.cursorAtCompletion.line →
          r.cursor.line ≠ env.cursorAtStart.line + 1) := by
  refine ⟨displayTranscriptionResult env.buttonFound env.editorFound
    env.buttonParentFound env.doc env.cursorAtCompletion finalText, ?_, ?_, ?_, ?_⟩
  · simp [transcribeAudio, hBody]
  · have hL : env.doc[env.cursorAtCompletion.line + 1]? = some line := by
      simpa [List.get?_eq_getElem?] using hLine
    simp [displayTranscriptionResult, hBtn, hEd, hPar, insertAt, hL,
      take_zero_append_drop_zero]
  · simp [displayTranscriptionResult, hBtn, hEd, hPar]
  · intro hMove
    simp [displayTranscriptionResult, hBtn, hEd, hPar]
    omega

/-- Witness for C2 at a concrete environment: transcript hello world,
cursor on line 0 at completion after starting on line 5; the text lands on
line 1 of the two-line document. -/
theorem insertion_below_current_cursor_witness :
    (transcribeBody sOff envOllamaFail = Except.ok (BodyResult.completed "hello world")
      ∧ envOllamaFail.buttonFound = true
      ∧ envOllamaFail.editorFound = true
      ∧ envOllamaFail.buttonParentFound = true
      ∧ envOllamaFail.doc.get? (envOllamaFail.cursorAtCompletion.line + 1) = some "beta")
    ∧ ∃ r : InsertResult,
      (transcribeAudio sOff envOllamaFail).insertResult = some r
      ∧ r.doc = envOllamaFail.doc.set (envOllamaFail.cursorAtCompletion.line + 1)
          (String.trim "hello world" ++ "beta")
      ∧ r.cursor = { line := envOllamaFail.cursorAtCompletion.line + 1,
                     ch := (String.trim "hello world").length }
      ∧ (envOllamaFail.cursorAtStart.line ≠ envOllamaFail.cursorAtCompletion.line →
          r.cursor.line ≠ envOllamaFail.cursorAtStart.line + 1) :=
  ⟨⟨rfl, rfl, rfl, rfl, rfl⟩,
    insertion_below_current_cursor sOff envOllamaFail "hello world" "beta"
      rfl rfl rfl rfl rfl⟩

/-- C4: when the availability probe fails (network error or non-success
status), the job ends in the Failed unavailable terminal state: the user is
notified, the progress UI shows the terminal failure text and is removed
after 3000 ms (3 time units of the half-unit animation cadence), and the
recognition endpoint is never called. -/
theorem unavailable_terminal_no_recognition (s : MyPluginSettings) (env : TranscribeEnv)
    (h : checkWhisperServerAvailability env.probe = false) :
    (transcribeAudio s env).recognitionCalled = false
    ∧ (transcribeAudio s env).progressText = "Failed: Server Unavailable"
    ∧ (transcribeAudio s env).notifications = ["Whisper Server Unavailable"]
    ∧ (transcribeAudio s env).removeDelayMs = 3000 := by
  have hb : transcribeBody s env = Except.ok BodyResult.earlyUnavailable := by
    simp [transcribeBody, h]
  simp [transcribeAudio, hb]

/-- Witness for C4: the probe throws. -/
theorem unavailable_terminal_no_recognition_witness :
    checkWhisperServerAvailability envDown.probe = false
    ∧ ((transcribeAudio sOff envDown).recognitionCalled = false
      ∧ (transcribeAudio sOff envDown).progressText = "Failed: Server Unavailable"
      ∧ (transcribeAudio sOff envDown).notifications = ["Whisper Server Unavailable"]
      ∧ (transcribeAudio sOff envDown).removeDelayMs = 3000) :=
  ⟨rfl, unavailable_terminal_no_recognition sOff envDown rfl⟩

/-- C5: evaluation of the code at the failing input. With post-processing
enabled and the whole pipeline succeeding, the job starts the outer timer 0
and the post-processing timer 1, but all three clearInterval calls on the
exit path clear timer 0 (the inner const of the post-processing branch is
block-scoped and shadowed at every clear site), so timer 1 is started and
never cleared: a timer remains active after the job reaches its terminal
state, contradicting the claim that every timer - including the
post-processing one - is cancelled before the reporter is removed. -/
theorem ollama_stage_timer_leaks :
    (transcribeAudio sOn envOllamaOk).timersStarted = [0, 1]
    ∧ (transcribeAudio sOn envOllamaOk).timersCleared = [0, 0, 0]
    ∧ 1 ∈ (transcribeAudio sOn envOllamaOk).timersStarted
    ∧ 1 ∉ (transcribeAudio sOn envOllamaOk).timersCleared :=
  ⟨rfl, rfl, by decide, by decide⟩

/-- Transport of the skip guards of the result inserter: when the control,
the active editor, or the control's parent is missing, the document is
untouched and a notice is issued. -/
theorem displayTranscriptionResult_skip (bf ef pf : Bool) (doc : List String)
    (cursor : EditorPos) (text : String)
    (hMiss : bf = false ∨ ef = false ∨ pf = false) :
    (displayTranscriptionResult bf ef pf doc cursor text).doc = doc
    ∧ (displayTranscriptionResult bf ef pf doc cursor text).mutated = false
    ∧ (displayTranscriptionResult bf ef pf doc cursor text).notice.isSome = true := by
  cases bf <;> cases ef <;> cases pf <;> simp_all [displayTranscriptionResult]

/-- C6: if at completion time no focused editable view exists or the
control or its parent cannot be found, the insertion is skipped: a
user-visible notice is issued, the document is left completely unchanged,
and the job still terminates in the Done state (progress text Transcription
Complete), never in a Failed state. -/
theorem insertion_skipped_job_completes (s : MyPluginSettings) (env : TranscribeEnv)
    (finalText : String)
    (hBody : transcribeBody s env = Except.ok (BodyResult.completed finalText))
    (hMiss : env.buttonFound = false ∨ env.editorFound = false
      ∨ env.buttonParentFound = false) :
    (transcribeAudio s env).progressText = "Transcription Complete"
    ∧ ∃ r : InsertResult,
        (transcribeAudio s env).insertResult = some r
        ∧ r.doc = env.doc
        ∧ r.mutated = false
        ∧ r.notice.isSome = true := by
  have h := displayTranscriptionResult_skip env.buttonFound env.editorFound
    env.buttonParentFound env.doc env.cursorAtCompletion finalText hMiss
  refine ⟨by simp [transcribeAudio, hBody],
    displayTranscriptionResult env.buttonFound env.editorFound
      env.buttonParentFound env.doc env.cursorAtCompletion finalText,
    by simp [transcribeAudio, hBody], h.1, h.2.1, h.2.2⟩

/-- Witness for C6: successful pipeline but no active editor at completion. -/
theorem insertion_skipped_job_completes_witness :
    (transcribeBody sOff envNoEditor = Except.ok (BodyResult.completed "hello world")
      ∧ (envNoEditor.buttonFound = false ∨ envNoEditor.editorFound = false
          ∨ envNoEditor.buttonParentFound = false))
    ∧ ((transcribeAudio sOff envNoEditor).progressText = "Transcription Complete"
      ∧ ∃ r : InsertResult,
          (transcribeAudio sOff envNoEditor).insertResult = some r
          ∧ r.doc = envNoEditor.doc
          ∧ r.mutated = false
          ∧ r.notice.isSome = true) :=
  ⟨⟨rfl, Or.inr (Or.inl rfl)⟩,
    insertion_skipped_job_completes sOff envNoEditor "hello world" rfl
      (Or.inr (Or.inl rfl))⟩

/-- C7 counterexample: activating the control of an element that already has
an active job is not a no-op - the unconditional click listener starts a
second job, so the job list changes. -/
theorem second_activation_not_noop :
    clickTranscribe sOff envOllamaFail [transcribeAudio sOff envOllamaFail]
      ≠ [transcribeAudio sOff envOllamaFail] := by
  intro h
  have hlen := congrArg List.length h
  simp [clickTranscribe] at hlen

/-- C7 amended: the click listener carries no guard, so every activation -
including one issued while a job for the same element is still active -
starts one additional, fully independent job for that element. -/
theorem activation_starts_independent_job (s : MyPluginSettings) (env : TranscribeEnv)
    (activeJobs : List JobOutcome) :
    (clickTranscribe s env activeJobs).length = activeJobs.length + 1
    ∧ clickTranscribe s env activeJobs = activeJobs ++ [transcribeAudio s env] := by
  simp [clickTranscribe]

/-- C8: the orchestration entry point catches every failure arising inside a
running job - probe failure, audio fetch failure, non-success status or
parse failure of the recognition call, and post-processing failure - and
converts it to one of the three terminal UI states, always scheduling the
progress-indicator removal; transcribeAudio is a total function of its
environment, so no activation propagates an exception to its caller. -/
theorem failures_converted_to_terminal_ui (s : MyPluginSettings) (env : TranscribeEnv) :
    ((transcribeAudio s env).progressText = "Transcription Complete"
      ∨ (transcribeAudio s env).progressText = "Failed: Server Unavailable"
      ∨ (transcribeAudio s env).progressText = "Failed: Transcription Error")
    ∧ (transcribeAudio s env).removeDelayMs = 3000 := by
  cases hb : transcribeBody s env with
  | error e =>
    exact ⟨Or.inr (Or.inr (by simp [transcribeAudio, hb])), by simp [transcribeAudio, hb]⟩
  | ok b =>
    cases b with
    | earlyUnavailable =>
      exact ⟨Or.inr (Or.inl (by simp [transcribeAudio, hb])), by simp [transcribeAudio, hb]⟩
    | completed ft =>
      exact ⟨Or.inl (by simp [transcribeAudio, hb]), by simp [transcribeAudio, hb]⟩

/-- C9: checkWhisperServerAvailability returns true exactly when the probe
completes with a success status, and a probe that throws yields false - the
catch branch converts the exception, which therefore never reaches the
caller. -/
theorem checkAvailability_iff_success (probe : FetchOutcome Unit) :
    (checkWhisperServerAvailability probe = true
      ↔ ∃ b, probe = FetchOutcome.response true b)
    ∧ checkWhisperServerAvailability FetchOutcome.netError = false := by
  refine ⟨?_, rfl⟩
  cases probe with
  | netError => simp [checkWhisperServerAvailability]
  | response ok b =>
    cases ok <;> simp [checkWhisperServerAvailability]

/-- Modulo-6 closed form of the dot counter: the tick function increments
below 5 and resets at 5. -/
theorem dotCountAfter_mod (n : Nat) : dotCountAfter n = n % 6 := by
  induction n with
  | zero => rfl
  | succ k ih =>
    show dotTick (dotCountAfter k) = (k + 1) % 6
    rw [ih]
    unfold dotTick
    split <;> omega

/-- C10: the progress label ticks on a fixed cadence of 500 ms (0.5 time
units), so 3.0 time units span exactly 6 ticks; the displayed trailing-dot
count runs 0 (initial render), then 1 through 5 on ticks 1 through 5, wraps
back to 0 exactly at tick 6, never exceeds 5, and repeats with period 6. -/
theorem progress_dots_wrap :
    6 * tickIntervalMs = 3000
    ∧ displayedDotsAt 0 = 0
    ∧ displayedDotsAt 1 = 1
    ∧ displayedDotsAt 2 = 2
    ∧ displayedDotsAt 3 = 3
    ∧ displayedDotsAt 4 = 4
    ∧ displayedDotsAt 5 = 5
    ∧ displayedDotsAt 6 = 0
    ∧ (∀ n, displayedDotsAt n ≤ 5)
    ∧ (∀ n, displayedDotsAt (n + 6) = displayedDotsAt n) := by
  refine ⟨rfl, rfl, rfl, rfl, rfl, rfl, rfl, rfl, ?_, ?_⟩
  · intro n
    show dotCountAfter n ≤ 5
    rw [dotCountAfter_mod]
    omega
  · intro n
    show dotCountAfter (n + 6) = dotCountAfter n
    rw [dotCountAfter_mod, dotCountAfter_mod]
    omega

end WhisperToOllama
